import Mathlib

/-
Verification of the message-routing and response-shaping pipeline of
`app.py` (a LINE nutrition chat-bot relay).

The Python source is shallowly embedded as pure Lean functions.  External
collaborators (the OpenAI completion client, the Redis session store, the
LINE messaging gateway) are modelled by explicit oracle records that fix,
for one inbound event, the outcome of each external call the handler may
make: whether a store operation raises, which exception class (if any) a
completion call raises, which text a successful completion returns, and
which random index `random.choice` draws.  A handler run produces a trace
of externally visible effects (store writes/deletes, completion calls,
the humanization sleep, and reply messages) together with the resulting
store contents, so that ordering, counting and absence of effects can be
stated and proved.
-/

set_option maxHeartbeats 1000000
set_option linter.unusedVariables false

namespace NutritionBot

/-! ### Python string primitives

`str.strip` and the substring test `pat in s` are re-implemented
structurally over `List Char` so that every definition reduces in the
kernel. -/

/-- Model of Python `pat in s` restricted to a prefix position:
true iff `pat` is a prefix of `s`. -/
def charsStartWith : List Char → List Char → Bool
  | _, [] => true
  | [], _ :: _ => false
  | c :: cs, p :: ps => c == p && charsStartWith cs ps

/-- Model of Python `pat in s`: true iff `pat` occurs contiguously in `s`. -/
def charsContain (pat : List Char) : List Char → Bool
  | [] => charsStartWith [] pat
  | c :: cs => charsStartWith (c :: cs) pat || charsContain pat cs

/-- Python `pat in s` on strings. -/
def strContains (s pat : String) : Bool := charsContain pat.data s.data

/-- Python `str.strip()`: drop leading and trailing whitespace. -/
def trimChars (l : List Char) : List Char :=
  ((l.dropWhile Char.isWhitespace).reverse.dropWhile Char.isWhitespace).reverse

/-- Python `str.strip()` on strings. -/
def pyStrip (s : String) : String := ⟨trimChars s.data⟩

/-- Python `len(s)` (number of code points). -/
def pyLen (s : String) : Nat := s.data.length

/-! ### Data model -/

/-- A value held in the Redis session store.  The Python code only ever
writes `json.dumps({"base64_image": b})`; `imageJson b` stands for that
serialized string, and `other s` stands for any string that is not a
well-formed pending-image record (for which `json.loads`/key access in
the text handler raises and is caught by the generic except clause). -/
inductive RVal where
  | imageJson (base64 : String)
  | other (s : String)
deriving DecidableEq

/-- `json.loads(v)['base64_image']`, `none` when it raises. -/
def jsonLoadsImage : RVal → Option String
  | RVal.imageJson b => some b
  | RVal.other _ => none

/-- Python truthiness of the string retrieved from Redis
(`if pending_image_data_str:`). -/
def rvalTruthy : RVal → Bool
  | RVal.imageJson _ => true
  | RVal.other s => !(s == "")

/-- The session store: an association list from Redis key to
(value, remaining TTL in seconds). -/
abbrev Store := List (String × RVal × Nat)

/-- Redis `GET`-style lookup returning value and TTL. -/
def storeLookup : Store → String → Option (RVal × Nat)
  | [], _ => none
  | e :: rest, k => if e.1 = k then some e.2 else storeLookup rest k

/-- Redis `GET` (`r.get`): the stored value, ignoring the TTL. -/
def storeGet (s : Store) (k : String) : Option RVal := (storeLookup s k).map Prod.fst

/-- Remove every entry for key `k`. -/
def storeDel : Store → String → Store
  | [], _ => []
  | e :: rest, k => if e.1 = k then storeDel rest k else e :: storeDel rest k

/-- Redis `SET` with `ex=ttl` (`r.set(..., ex=...)`): last write wins. -/
def storeSet (s : Store) (k : String) (v : RVal) (ttl : Nat) : Store :=
  (k, v, ttl) :: storeDel s k

/-- The Redis key used for user `u` (`f"pending_image:{user_id}"`). -/
def pendingKey (u : String) : String := "pending_image:" ++ u

/-- Outcome of one `client.chat.completions.create` call: the returned
text (`choices[0].message.content`), or the exception class raised. -/
inductive CompletionResult where
  | success (text : String)
  | authError
  | apiError
  | otherError
deriving DecidableEq

/-- Which completion call was issued, with its distinguishing input. -/
inductive CallKind where
  | classify (input : String)
  | nutritionGen (input : String)
  | emotionGen (input : String)
  | visionFromText (base64 : String)
  | visionFromImage (base64 : String)
deriving DecidableEq

/-- An externally visible effect of one handler run. -/
inductive Effect where
  | callLLM (k : CallKind)
  | storeDelete (key : String)
  | storeSet (key : String) (v : RVal) (ttl : Nat)
  | sleep (textLen : Nat)
  | reply (text : String)
deriving DecidableEq

/-- Result of running one event handler: its effect trace and the
resulting store contents. -/
structure HandlerResult where
  trace : List Effect
  store : Store
deriving DecidableEq

/-! ### Fixed reply strings (verbatim from `app.py`) -/

def defaultReply : String := "目前無法回覆，請稍後再試 🧘"

def authApology : String := "GPT 驗證失敗，請檢查 API 金鑰和帳戶。🔐"

def visionApiApology : String := "圖片分析服務暫時不穩定，請稍後再試。🌐"

def visionOtherApology : String := "抱歉，分析圖片時遇到問題，請稍後再試。😢"

def textApiApology : String := "GPT 服務暫時不穩定，請稍後再試。🌐"

def pendingReminder : String :=
  "嗯？這條訊息好像不是在問照片的問題耶！如果你想問照片，記得告訴我喔。不然我可以回答其他關於營養或健康的問題啦！"

def unknownCategoryReply : String := "抱歉，我還不太明白您的意思，您可以再說清楚一點嗎？"

def imageDefaultReply : String := "抱歉，圖片處理服務目前無法使用，請稍後再試。😅"

def imageAck : String := "照片收到囉。請問有什麼想問的嗎？"

def imageOtherApology : String := "處理圖片時遇到問題，請稍後再試 🧘"

def positive_emojis : List String := ["😊", "👍", "✨", "🌸", "💡", "💖", "🌟", "🙌", "🙂"]

def image_analysis_keywords : List String :=
  ["熱量", "卡路里", "算", "估", "分析", "看", "這是什麼", "照片", "圖"]

/-- `any(keyword in user_input for keyword in image_analysis_keywords)`. -/
def is_image_analysis_intent (t : String) : Bool :=
  image_analysis_keywords.any (fun k => strContains t k)

/-- `random.choice(positive_emojis)`, with the uniformly sampled choice
supplied as an index. -/
def pickEmoji (i : Nat) : String :=
  positive_emojis.getD (i % positive_emojis.length) "😊"

/-! ### Pacing & delivery -/

/-- `send_delayed_response(event, reply_text)`: sleep for a delay computed
from `len(reply_text)` (the sampled delay value itself is specified by
`delay_seconds` below), then send exactly one message whose text is
`reply_text.strip()`.  A gateway failure of the final `reply_message`
call is caught and swallowed inside this function, so the attempted
reply is always the last effect. -/
def send_delayed_response (reply_text : String) : List Effect :=
  [Effect.sleep (pyLen reply_text), Effect.reply (pyStrip reply_text)]

/-- The artificial delay computed by `send_delayed_response`, in seconds,
over exact rationals.  `u` and `v` in `[0,1]` model the two
`random.uniform` draws via `uniform(a,b) = a + (b-a)*u`. -/
def delay_seconds (reply_length : Nat) (u v : ℚ) : ℚ :=
  if reply_length ≤ 30 then 3 + 2 * u
  else if reply_length ≤ 60 then 5 + 2 * u
  else if reply_length ≤ 100 then 7 + 2 * u
  else min (7 + 2 * u + (((reply_length : ℚ) - 100) / 50) * (1 + v)) 30

/-! ### Oracles for external-call outcomes -/

/-- Outcomes of the external calls `handle_text_message` may make. -/
structure TextOracle where
  getRaises : Bool
  delRaises : Bool
  classifyResult : CompletionResult
  nutritionResult : CompletionResult
  emotionResult : CompletionResult
  visionResult : CompletionResult
  emojiIdx : Nat

/-- Outcomes of the external calls `handle_image_message` may make. -/
structure ImageOracle where
  fetchRaises : Bool
  fetchedBase64 : String
  setRaises : Bool
  visionResult : CompletionResult

/-! ### The text-message handler -/

/-- The two-stage classification flow of `handle_text_message` (run when
no truthy pending image was found): classify with gpt-3.5-turbo, then
branch on the stripped category label.  Every exception from a
completion call is caught by the handler's trailing except clauses. -/
def textClassificationFlow (store : Store) (user_input : String) (o : TextOracle) :
    HandlerResult :=
  match o.classifyResult with
  | CompletionResult.success s =>
    if pyStrip s = "營養/健康相關" then
      match o.nutritionResult with
      | CompletionResult.success t =>
          ⟨Effect.callLLM (CallKind.classify user_input) ::
             Effect.callLLM (CallKind.nutritionGen user_input) ::
             send_delayed_response (pyStrip t), store⟩
      | CompletionResult.authError =>
          ⟨Effect.callLLM (CallKind.classify user_input) ::
             Effect.callLLM (CallKind.nutritionGen user_input) ::
             send_delayed_response authApology, store⟩
      | CompletionResult.apiError =>
          ⟨Effect.callLLM (CallKind.classify user_input) ::
             Effect.callLLM (CallKind.nutritionGen user_input) ::
             send_delayed_response textApiApology, store⟩
      | CompletionResult.otherError =>
          ⟨Effect.callLLM (CallKind.classify user_input) ::
             Effect.callLLM (CallKind.nutritionGen user_input) ::
             send_delayed_response defaultReply, store⟩
    else if pyStrip s = "情緒/閒聊/非營養提問" then
      match o.emotionResult with
      | CompletionResult.success t =>
          ⟨Effect.callLLM (CallKind.classify user_input) ::
             Effect.callLLM (CallKind.emotionGen user_input) ::
             send_delayed_response (pyStrip t), store⟩
      | CompletionResult.authError =>
          ⟨Effect.callLLM (CallKind.classify user_input) ::
             Effect.callLLM (CallKind.emotionGen user_input) ::
             send_delayed_response authApology, store⟩
      | CompletionResult.apiError =>
          ⟨Effect.callLLM (CallKind.classify user_input) ::
             Effect.callLLM (CallKind.emotionGen user_input) ::
             send_delayed_response textApiApology, store⟩
      | CompletionResult.otherError =>
          ⟨Effect.callLLM (CallKind.classify user_input) ::
             Effect.callLLM (CallKind.emotionGen user_input) ::
             send_delayed_response defaultReply, store⟩
    else if pyStrip s = "無關" then
      -- emoji reply sent directly through the gateway: no delay, no strip
      ⟨[Effect.callLLM (CallKind.classify user_input),
        Effect.reply (pickEmoji o.emojiIdx)], store⟩
    else
      ⟨Effect.callLLM (CallKind.classify user_input) ::
         send_delayed_response unknownCategoryReply, store⟩
  | CompletionResult.authError =>
      ⟨Effect.callLLM (CallKind.classify user_input) ::
         send_delayed_response authApology, store⟩
  | CompletionResult.apiError =>
      ⟨Effect.callLLM (CallKind.classify user_input) ::
         send_delayed_response textApiApology, store⟩
  | CompletionResult.otherError =>
      ⟨Effect.callLLM (CallKind.classify user_input) ::
         send_delayed_response defaultReply, store⟩

/-- The image-analysis branch of `handle_text_message`, entered when a
truthy pending-image value `v` was found and the text matches an
image-analysis keyword.  The Redis delete is attempted first (its
failure is caught and processing continues); then `json.loads`, then
the gpt-4o vision call, all inside a try whose except clauses map each
failure class to a fixed apology. -/
def visionTextCore (deleted : List Effect) (store1 : Store) (v : RVal)
    (vr : CompletionResult) : HandlerResult :=
  match jsonLoadsImage v with
  | some b64 =>
    match vr with
    | CompletionResult.success t =>
        ⟨deleted ++ Effect.callLLM (CallKind.visionFromText b64) ::
           send_delayed_response (pyStrip t), store1⟩
    | CompletionResult.authError =>
        ⟨deleted ++ Effect.callLLM (CallKind.visionFromText b64) ::
           send_delayed_response authApology, store1⟩
    | CompletionResult.apiError =>
        ⟨deleted ++ Effect.callLLM (CallKind.visionFromText b64) ::
           send_delayed_response visionApiApology, store1⟩
    | CompletionResult.otherError =>
        ⟨deleted ++ Effect.callLLM (CallKind.visionFromText b64) ::
           send_delayed_response visionOtherApology, store1⟩
  | none =>
      -- json.loads raised: caught by the generic except clause
      ⟨deleted ++ send_delayed_response visionOtherApology, store1⟩

def visionTextFlow (store : Store) (user_id : String) (v : RVal) (o : TextOracle) :
    HandlerResult :=
  visionTextCore
    (if o.delRaises then [] else [Effect.storeDelete (pendingKey user_id)])
    (if o.delRaises then store else storeDel store (pendingKey user_id))
    v o.visionResult

/-- `handle_text_message(event)`.  `client` is whether the OpenAI client
was initialized, `rPresent` whether the Redis client was initialized. -/
def handle_text_message (client rPresent : Bool) (store : Store)
    (user_id user_input : String) (o : TextOracle) : HandlerResult :=
  if !client then
    ⟨send_delayed_response defaultReply, store⟩
  else
    match (if rPresent && !o.getRaises then storeGet store (pendingKey user_id) else none) with
    | some v =>
      if rvalTruthy v then
        if is_image_analysis_intent user_input then
          visionTextFlow store user_id v o
        else
          ⟨send_delayed_response pendingReminder, store⟩
      else
        textClassificationFlow store user_input o
    | none =>
        textClassificationFlow store user_input o

/-! ### The image-message handler -/

/-- The direct (stateless) vision analysis the image handler performs
when the Redis client is not configured at all. -/
def directVisionFlow (store : Store) (b64 : String) (vr : CompletionResult) :
    HandlerResult :=
  match vr with
  | CompletionResult.success t =>
      ⟨Effect.callLLM (CallKind.visionFromImage b64) ::
         send_delayed_response (pyStrip t), store⟩
  | CompletionResult.authError =>
      ⟨Effect.callLLM (CallKind.visionFromImage b64) ::
         send_delayed_response authApology, store⟩
  | CompletionResult.apiError =>
      ⟨Effect.callLLM (CallKind.visionFromImage b64) ::
         send_delayed_response visionApiApology, store⟩
  | CompletionResult.otherError =>
      ⟨Effect.callLLM (CallKind.visionFromImage b64) ::
         send_delayed_response imageOtherApology, store⟩

/-- `handle_image_message(event)`.  A raise of `get_message_content` or of
`r.set` lands in the handler's generic except clause (the exception
types of those collaborators are not among the OpenAI classes caught
earlier), producing the generic image apology. -/
def handle_image_message (client rPresent : Bool) (store : Store)
    (user_id : String) (o : ImageOracle) : HandlerResult :=
  if !client then
    ⟨send_delayed_response imageDefaultReply, store⟩
  else if o.fetchRaises then
    ⟨send_delayed_response imageOtherApology, store⟩
  else if rPresent then
    if o.setRaises then
      ⟨send_delayed_response imageOtherApology, store⟩
    else
      ⟨Effect.storeSet (pendingKey user_id) (RVal.imageJson o.fetchedBase64) 300 ::
         send_delayed_response imageAck,
       storeSet store (pendingKey user_id) (RVal.imageJson o.fetchedBase64) 300⟩
  else
    directVisionFlow store o.fetchedBase64 o.visionResult

/-! ### Module initialization and the webhook endpoint -/

/-- Presence of the four configuration environment variables. -/
structure Config where
  lineToken : Bool
  lineSecret : Bool
  openaiKey : Bool
  redisUrl : Bool
deriving DecidableEq

/-- The mutable module state after initialization. -/
structure AppState where
  client : Bool
  rPresent : Bool
deriving DecidableEq

/-- Module-level initialization of `app.py`.  When either LINE credential
is missing, `handler` is set to `None` and evaluating the decorator
`@handler.add(...)` at import time raises `AttributeError`, so startup
fails (`none`).  A missing OpenAI key or Redis URL merely leaves the
corresponding client handle `None` and the process keeps running. -/
def module_init (c : Config) : Option AppState :=
  if c.lineToken && c.lineSecret then some ⟨c.openaiKey, c.redisUrl⟩ else none

/-- An inbound webhook event after parsing. -/
inductive InboundEvent where
  | text (user_id msg : String)
  | image (user_id : String)
deriving DecidableEq

/-- `handler.handle` dispatch to the registered message handlers.  Every
external-call failure inside the handlers is caught internally (each
completion call sits in a try with exhaustive except clauses, each
Redis call in its own try, and the final gateway reply inside
`send_delayed_response`'s try), so dispatch is a total function. -/
def dispatchEvent (st : AppState) (store : Store) (ev : InboundEvent)
    (ot : TextOracle) (oi : ImageOracle) : HandlerResult :=
  match ev with
  | InboundEvent.text u m => handle_text_message st.client st.rPresent store u m ot
  | InboundEvent.image u => handle_image_message st.client st.rPresent store u oi

/-- An HTTP response of the `/callback` route together with the effects
of the dispatched handler. -/
structure HttpResult where
  status : Nat
  body : String
  res : HandlerResult
deriving DecidableEq

/-- The `/callback` route: 500 when the handler was never initialized
(unreachable in a process that survived startup), 400 on an invalid
signature, otherwise dispatch and answer 200 "OK". -/
def callback (handlerPresent sigValid : Bool) (st : AppState) (store : Store)
    (ev : InboundEvent) (ot : TextOracle) (oi : ImageOracle) : HttpResult :=
  if !handlerPresent then ⟨500, "", ⟨[], store⟩⟩
  else if !sigValid then ⟨400, "", ⟨[], store⟩⟩
  else ⟨200, "OK", dispatchEvent st store ev ot oi⟩

/-! ### Trace observations -/

/-- The texts of the reply messages in a trace, in order. -/
def replyTexts (t : List Effect) : List String :=
  t.filterMap fun e =>
    match e with
    | Effect.reply s => some s
    | _ => none

/-- The completion calls in a trace, in order. -/
def llmCalls (t : List Effect) : List CallKind :=
  t.filterMap fun e =>
    match e with
    | Effect.callLLM k => some k
    | _ => none

/-- Whether an effect is the humanization sleep. -/
def isSleep : Effect → Bool
  | Effect.sleep _ => true
  | _ => false

/-! ### Basic lemmas about the store and the trace observations -/

theorem storeLookup_storeDel_self (s : Store) (k : String) :
    storeLookup (storeDel s k) k = none := by
  induction s with
  | nil => rfl
  | cons e rest ih =>
      by_cases h : e.1 = k
      · simp [storeDel, h, ih]
      · simp [storeDel, h, storeLookup, ih]

theorem storeGet_storeDel_self (s : Store) (k : String) :
    storeGet (storeDel s k) k = none := by
  simp [storeGet, storeLookup_storeDel_self]

theorem storeLookup_storeSet_self (s : Store) (k : String) (v : RVal) (t : Nat) :
    storeLookup (storeSet s k v t) k = some (v, t) := by
  simp [storeSet, storeLookup]

theorem replyTexts_sdr (t : String) :
    replyTexts (send_delayed_response t) = [pyStrip t] := rfl

/-- Every run of the classification flow sends exactly one reply. -/
theorem textClassificationFlow_one_reply (store : Store) (m : String) (o : TextOracle) :
    (replyTexts (textClassificationFlow store m o).trace).length = 1 := by
  unfold textClassificationFlow
  cases o.classifyResult with
  | success s =>
      dsimp only
      split_ifs <;>
        first
          | rfl
          | (cases o.nutritionResult <;> rfl)
          | (cases o.emotionResult <;> rfl)
  | authError => rfl
  | apiError => rfl
  | otherError => rfl

/-- Every run of the pending-image vision flow sends exactly one reply. -/
theorem visionTextFlow_one_reply (store : Store) (u : String) (v : RVal) (o : TextOracle) :
    (replyTexts (visionTextFlow store u v o).trace).length = 1 := by
  unfold visionTextFlow visionTextCore
  cases o.delRaises <;> cases jsonLoadsImage v <;>
    first
      | rfl
      | (cases o.visionResult <;> rfl)

/-- Every run of the text handler sends exactly one reply. -/
theorem handle_text_one_reply (c rp : Bool) (store : Store) (u m : String)
    (o : TextOracle) :
    (replyTexts (handle_text_message c rp store u m o).trace).length = 1 := by
  unfold handle_text_message
  cases c with
  | false => rfl
  | true =>
      cases h : (if rp && !o.getRaises then storeGet store (pendingKey u) else none) with
      | none => exact textClassificationFlow_one_reply store m o
      | some v =>
          cases ht : rvalTruthy v with
          | false => simp [ht, textClassificationFlow_one_reply store m o]
          | true =>
              cases hi : is_image_analysis_intent m with
              | false => simp [ht, hi]; rfl
              | true => simp [ht, hi, visionTextFlow_one_reply store u v o]

/-- Every run of the image handler sends exactly one reply. -/
theorem handle_image_one_reply (c rp : Bool) (store : Store) (u : String)
    (o : ImageOracle) :
    (replyTexts (handle_image_message c rp store u o).trace).length = 1 := by
  unfold handle_image_message directVisionFlow
  cases c <;> cases o.fetchRaises <;> cases rp <;> cases o.setRaises <;>
    first
      | rfl
      | (cases o.visionResult <;> rfl)

/-- When no truthy pending image is found, the text handler runs the
classification flow. -/
theorem handle_text_no_pending (store : Store) (u m : String) (o : TextOracle)
    (hg : o.getRaises = false) (hnp : storeGet store (pendingKey u) = none) :
    handle_text_message true true store u m o = textClassificationFlow store m o := by
  unfold handle_text_message
  simp [hg, hnp]

/-- When a truthy pending image is found and the text matches an
image-analysis keyword, the text handler runs the vision flow. -/
theorem handle_text_pending_intent (store : Store) (u m : String) (v : RVal)
    (o : TextOracle) (hg : o.getRaises = false)
    (hp : storeGet store (pendingKey u) = some v)
    (ht : rvalTruthy v = true) (hkw : is_image_analysis_intent m = true) :
    handle_text_message true true store u m o = visionTextFlow store u v o := by
  unfold handle_text_message
  simp [hg, hp, ht, hkw]

/-- A classification result of `無關` selects the emoji branch. -/
theorem textClassificationFlow_unrelated (store : Store) (m : String) (o : TextOracle)
    (hc : o.classifyResult = CompletionResult.success "無關") :
    textClassificationFlow store m o =
      ⟨[Effect.callLLM (CallKind.classify m), Effect.reply (pickEmoji o.emojiIdx)],
        store⟩ := by
  unfold textClassificationFlow
  rw [hc]
  simp only []
  rw [if_neg (by decide), if_neg (by decide), if_pos (by decide)]

theorem pickEmoji_mem (i : Nat) : pickEmoji i ∈ positive_emojis := by
  have h : i % 9 = 0 ∨ i % 9 = 1 ∨ i % 9 = 2 ∨ i % 9 = 3 ∨ i % 9 = 4 ∨ i % 9 = 5 ∨
      i % 9 = 6 ∨ i % 9 = 7 ∨ i % 9 = 8 := by omega
  have hlen : positive_emojis.length = 9 := rfl
  unfold pickEmoji
  rw [hlen]
  rcases h with h|h|h|h|h|h|h|h|h <;> rw [h] <;> decide

theorem pickEmoji_surj : ∀ e ∈ positive_emojis, ∃ i, pickEmoji i = e := by
  intro e he
  simp only [positive_emojis, List.mem_cons, List.not_mem_nil, or_false] at he
  rcases he with h|h|h|h|h|h|h|h|h <;> subst h
  · exact ⟨0, by decide⟩
  · exact ⟨1, by decide⟩
  · exact ⟨2, by decide⟩
  · exact ⟨3, by decide⟩
  · exact ⟨4, by decide⟩
  · exact ⟨5, by decide⟩
  · exact ⟨6, by decide⟩
  · exact ⟨7, by decide⟩
  · exact ⟨8, by decide⟩

/-! None of the fixed reply strings carries leading or trailing
whitespace, so the `strip` in delivery leaves them unchanged. -/

theorem pyStrip_defaultReply : pyStrip defaultReply = defaultReply := by decide

theorem pyStrip_authApology : pyStrip authApology = authApology := by decide

theorem pyStrip_textApiApology : pyStrip textApiApology = textApiApology := by decide

theorem pyStrip_visionApiApology : pyStrip visionApiApology = visionApiApology := by decide

theorem pyStrip_visionOtherApology :
    pyStrip visionOtherApology = visionOtherApology := by decide

theorem pyStrip_imageAck : pyStrip imageAck = imageAck := by decide

theorem pyStrip_imageOtherApology :
    pyStrip imageOtherApology = imageOtherApology := by decide

/-- A concrete store holding a pending image for user `U`, used to
instantiate hypotheses. -/
def demoStore : Store := [(pendingKey "U", RVal.imageJson "B64", 300)]

/-! ### Claims -/

/-- Claim C1: a text message from a user with a pending image in the
store, whose text contains an image-analysis keyword, invokes the vision
completion on the stored image, deletes the pending record, and sends
exactly one reply. -/
theorem C1_pending_keyword_vision (store : Store) (u m b64 : String)
    (cr nr er vr : CompletionResult) (idx : Nat)
    (hpend : storeGet store (pendingKey u) = some (RVal.imageJson b64))
    (hkw : is_image_analysis_intent m = true) :
    CallKind.visionFromText b64 ∈
        llmCalls (handle_text_message true true store u m
          ⟨false, false, cr, nr, er, vr, idx⟩).trace ∧
      storeGet (handle_text_message true true store u m
          ⟨false, false, cr, nr, er, vr, idx⟩).store (pendingKey u) = none ∧
      (replyTexts (handle_text_message true true store u m
          ⟨false, false, cr, nr, er, vr, idx⟩).trace).length = 1 := by
  rw [handle_text_pending_intent store u m (RVal.imageJson b64)
        ⟨false, false, cr, nr, er, vr, idx⟩ rfl hpend rfl hkw]
  cases vr <;>
    exact ⟨List.mem_singleton.mpr rfl,
           storeGet_storeDel_self store (pendingKey u), rfl⟩

theorem C1_pending_keyword_vision_check :
    CallKind.visionFromText "B64" ∈
        llmCalls (handle_text_message true true demoStore "U" "這張圖片熱量多少？"
          ⟨false, false, CompletionResult.success "好", CompletionResult.success "好",
            CompletionResult.success "好", CompletionResult.success "好", 0⟩).trace ∧
      storeGet (handle_text_message true true demoStore "U" "這張圖片熱量多少？"
          ⟨false, false, CompletionResult.success "好", CompletionResult.success "好",
            CompletionResult.success "好", CompletionResult.success "好", 0⟩).store
        (pendingKey "U") = none ∧
      (replyTexts (handle_text_message true true demoStore "U" "這張圖片熱量多少？"
          ⟨false, false, CompletionResult.success "好", CompletionResult.success "好",
            CompletionResult.success "好", CompletionResult.success "好", 0⟩).trace).length
        = 1 :=
  C1_pending_keyword_vision demoStore "U" "這張圖片熱量多少？" "B64"
    (CompletionResult.success "好") (CompletionResult.success "好")
    (CompletionResult.success "好") (CompletionResult.success "好") 0
    (by decide) (by decide)

/-- Claim C2: the artificial delivery delay is banded in the reply
length — `[3,5]` seconds up to 30 characters, `[5,7]` for 31–60, `[7,9]`
for 61–100, and above 100 a `[7,9]` base plus an extra proportional to
`length − 100`, capped so that the delay never exceeds 30 seconds. -/
theorem C2_delay_bands (L : Nat) (u v : ℚ)
    (hu0 : 0 ≤ u) (hu1 : u ≤ 1) (hv0 : 0 ≤ v) (hv1 : v ≤ 1) :
    (L ≤ 30 → 3 ≤ delay_seconds L u v ∧ delay_seconds L u v ≤ 5) ∧
    (30 < L → L ≤ 60 → 5 ≤ delay_seconds L u v ∧ delay_seconds L u v ≤ 7) ∧
    (60 < L → L ≤ 100 → 7 ≤ delay_seconds L u v ∧ delay_seconds L u v ≤ 9) ∧
    (100 < L →
      delay_seconds L u v
        = min (7 + 2 * u + (((L : ℚ) - 100) / 50) * (1 + v)) 30 ∧
      7 ≤ 7 + 2 * u ∧ 7 + 2 * u ≤ 9) ∧
    delay_seconds L u v ≤ 30 := by
  unfold delay_seconds
  refine ⟨?_, ?_, ?_, ?_, ?_⟩
  · intro h
    rw [if_pos h]
    constructor <;> linarith
  · intro h1 h2
    rw [if_neg (by omega), if_pos h2]
    constructor <;> linarith
  · intro h1 h2
    rw [if_neg (by omega), if_neg (by omega), if_pos h2]
    constructor <;> linarith
  · intro h
    rw [if_neg (by omega), if_neg (by omega), if_neg (by omega)]
    exact ⟨rfl, by linarith, by linarith⟩
  · by_cases h1 : L ≤ 30
    · rw [if_pos h1]; linarith
    · by_cases h2 : L ≤ 60
      · rw [if_neg h1, if_pos h2]; linarith
      · by_cases h3 : L ≤ 100
        · rw [if_neg h1, if_neg h2, if_pos h3]; linarith
        · rw [if_neg h1, if_neg h2, if_neg h3]
          exact min_le_right _ _

theorem C2_delay_bands_check :
    ((10 ≤ 30 → 3 ≤ delay_seconds 10 (1/2) (1/2) ∧ delay_seconds 10 (1/2) (1/2) ≤ 5) ∧
     (30 < 10 → 10 ≤ 60 → 5 ≤ delay_seconds 10 (1/2) (1/2) ∧
        delay_seconds 10 (1/2) (1/2) ≤ 7) ∧
     (60 < 10 → 10 ≤ 100 → 7 ≤ delay_seconds 10 (1/2) (1/2) ∧
        delay_seconds 10 (1/2) (1/2) ≤ 9) ∧
     (100 < 10 →
        delay_seconds 10 (1/2) (1/2)
          = min (7 + 2 * (1/2) + ((((10:Nat) : ℚ) - 100) / 50) * (1 + (1/2))) 30 ∧
        7 ≤ 7 + 2 * ((1:ℚ)/2) ∧ 7 + 2 * ((1:ℚ)/2) ≤ 9) ∧
     delay_seconds 10 (1/2) (1/2) ≤ 30) :=
  C2_delay_bands 10 (1/2) (1/2) (by norm_num) (by norm_num) (by norm_num) (by norm_num)

/-- Claim C6: a text message with no pending image that the classifier
labels `無關` is answered with one element of the fixed positive-emoji
set, picked by the sampled random index, and the only completion call of
the turn is the classification call. -/
theorem C6_unrelated_emoji (store : Store) (u m : String) (dr : Bool)
    (nr er vr : CompletionResult) (idx : Nat)
    (hnp : storeGet store (pendingKey u) = none) :
    (handle_text_message true true store u m
        ⟨false, dr, CompletionResult.success "無關", nr, er, vr, idx⟩).trace
      = [Effect.callLLM (CallKind.classify m), Effect.reply (pickEmoji idx)] ∧
    pickEmoji idx ∈ positive_emojis ∧
    llmCalls (handle_text_message true true store u m
        ⟨false, dr, CompletionResult.success "無關", nr, er, vr, idx⟩).trace
      = [CallKind.classify m] ∧
    (∀ e ∈ positive_emojis, ∃ i, pickEmoji i = e) := by
  rw [handle_text_no_pending store u m ⟨false, dr, CompletionResult.success "無關",
        nr, er, vr, idx⟩ rfl hnp,
      textClassificationFlow_unrelated store m ⟨false, dr,
        CompletionResult.success "無關", nr, er, vr, idx⟩ rfl]
  exact ⟨rfl, pickEmoji_mem idx, rfl, pickEmoji_surj⟩

theorem C6_unrelated_emoji_check :
    (handle_text_message true true [] "U" "哈囉"
        ⟨false, false, CompletionResult.success "無關", CompletionResult.success "好",
          CompletionResult.success "好", CompletionResult.success "好", 4⟩).trace
      = [Effect.callLLM (CallKind.classify "哈囉"), Effect.reply (pickEmoji 4)] ∧
    pickEmoji 4 ∈ positive_emojis ∧
    llmCalls (handle_text_message true true [] "U" "哈囉"
        ⟨false, false, CompletionResult.success "無關", CompletionResult.success "好",
          CompletionResult.success "好", CompletionResult.success "好", 4⟩).trace
      = [CallKind.classify "哈囉"] ∧
    (∀ e ∈ positive_emojis, ∃ i, pickEmoji i = e) :=
  C6_unrelated_emoji [] "U" "哈囉" false (CompletionResult.success "好")
    (CompletionResult.success "好") (CompletionResult.success "好") 4 (by decide)

/-- Claim C7: an image message while the store is available writes the
pending-image record with a 300-second TTL, answers with the short fixed
acknowledgment, and makes no completion call in that turn. -/
theorem C7_image_ack_and_store (store : Store) (u b64 : String) (vr : CompletionResult) :
    storeLookup (handle_image_message true true store u ⟨false, b64, false, vr⟩).store
        (pendingKey u) = some (RVal.imageJson b64, 300) ∧
    replyTexts (handle_image_message true true store u ⟨false, b64, false, vr⟩).trace
      = [imageAck] ∧
    llmCalls (handle_image_message true true store u ⟨false, b64, false, vr⟩).trace
      = [] := by
  refine ⟨storeLookup_storeSet_self store (pendingKey u) _ _, ?_, rfl⟩
  show [pyStrip imageAck] = [imageAck]
  rw [pyStrip_imageAck]

/-- Claim C9: in the pending-image vision path, the store delete happens
before the vision call is attempted, so a vision failure leaves the
pending image gone and the user with only the corresponding apology —
no rollback. -/
theorem C9_delete_precedes_vision (store : Store) (u m b64 : String)
    (cr nr er vr : CompletionResult) (idx : Nat)
    (hpend : storeGet store (pendingKey u) = some (RVal.imageJson b64))
    (hkw : is_image_analysis_intent m = true) :
    (∃ rest, (handle_text_message true true store u m
        ⟨false, false, cr, nr, er, vr, idx⟩).trace
      = Effect.storeDelete (pendingKey u) ::
          Effect.callLLM (CallKind.visionFromText b64) :: rest) ∧
    storeGet (handle_text_message true true store u m
        ⟨false, false, cr, nr, er, vr, idx⟩).store (pendingKey u) = none ∧
    (vr = CompletionResult.authError →
      replyTexts (handle_text_message true true store u m
          ⟨false, false, cr, nr, er, vr, idx⟩).trace = [authApology]) ∧
    (vr = CompletionResult.apiError →
      replyTexts (handle_text_message true true store u m
          ⟨false, false, cr, nr, er, vr, idx⟩).trace = [visionApiApology]) ∧
    (vr = CompletionResult.otherError →
      replyTexts (handle_text_message true true store u m
          ⟨false, false, cr, nr, er, vr, idx⟩).trace = [visionOtherApology]) := by
  rw [handle_text_pending_intent store u m (RVal.imageJson b64)
        ⟨false, false, cr, nr, er, vr, idx⟩ rfl hpend rfl hkw]
  cases vr with
  | success t =>
      refine ⟨⟨_, rfl⟩, storeGet_storeDel_self store (pendingKey u), ?_, ?_, ?_⟩ <;>
        · intro h
          exact absurd h (by simp)
  | authError =>
      refine ⟨⟨_, rfl⟩, storeGet_storeDel_self store (pendingKey u), ?_, ?_, ?_⟩
      · intro h
        show [pyStrip authApology] = [authApology]
        rw [pyStrip_authApology]
      · intro h
        exact absurd h (by decide)
      · intro h
        exact absurd h (by decide)
  | apiError =>
      refine ⟨⟨_, rfl⟩, storeGet_storeDel_self store (pendingKey u), ?_, ?_, ?_⟩
      · intro h
        exact absurd h (by decide)
      · intro h
        show [pyStrip visionApiApology] = [visionApiApology]
        rw [pyStrip_visionApiApology]
      · intro h
        exact absurd h (by decide)
  | otherError =>
      refine ⟨⟨_, rfl⟩, storeGet_storeDel_self store (pendingKey u), ?_, ?_, ?_⟩
      · intro h
        exact absurd h (by decide)
      · intro h
        exact absurd h (by decide)
      · intro h
        show [pyStrip visionOtherApology] = [visionOtherApology]
        rw [pyStrip_visionOtherApology]

theorem C9_delete_precedes_vision_check :
    (∃ rest, (handle_text_message true true demoStore "U" "幫我算熱量"
        ⟨false, false, CompletionResult.success "好", CompletionResult.success "好",
          CompletionResult.success "好", CompletionResult.otherError, 0⟩).trace
      = Effect.storeDelete (pendingKey "U") ::
          Effect.callLLM (CallKind.visionFromText "B64") :: rest) ∧
    storeGet (handle_text_message true true demoStore "U" "幫我算熱量"
        ⟨false, false, CompletionResult.success "好", CompletionResult.success "好",
          CompletionResult.success "好", CompletionResult.otherError, 0⟩).store
      (pendingKey "U") = none ∧
    (CompletionResult.otherError = CompletionResult.authError →
      replyTexts (handle_text_message true true demoStore "U" "幫我算熱量"
          ⟨false, false, CompletionResult.success "好", CompletionResult.success "好",
            CompletionResult.success "好", CompletionResult.otherError, 0⟩).trace
        = [authApology]) ∧
    (CompletionResult.otherError = CompletionResult.apiError →
      replyTexts (handle_text_message true true demoStore "U" "幫我算熱量"
          ⟨false, false, CompletionResult.success "好", CompletionResult.success "好",
            CompletionResult.success "好", CompletionResult.otherError, 0⟩).trace
        = [visionApiApology]) ∧
    (CompletionResult.otherError = CompletionResult.otherError →
      replyTexts (handle_text_message true true demoStore "U" "幫我算熱量"
          ⟨false, false, CompletionResult.success "好", CompletionResult.success "好",
            CompletionResult.success "好", CompletionResult.otherError, 0⟩).trace
        = [visionOtherApology]) :=
  C9_delete_precedes_vision demoStore "U" "幫我算熱量" "B64"
    (CompletionResult.success "好") (CompletionResult.success "好")
    (CompletionResult.success "好") CompletionResult.otherError 0
    (by decide) (by decide)

/-- Claim C10: the `無關` emoji reply is sent directly through the
gateway — its trace contains no humanization sleep and the reply text is
the chosen list element verbatim — whereas the shared delivery function
always sleeps first and strips the text. -/
theorem C10_unrelated_no_delay (store : Store) (u m t : String) (dr : Bool)
    (nr er vr : CompletionResult) (idx : Nat)
    (hnp : storeGet store (pendingKey u) = none) :
    (handle_text_message true true store u m
        ⟨false, dr, CompletionResult.success "無關", nr, er, vr, idx⟩).trace
      = [Effect.callLLM (CallKind.classify m), Effect.reply (pickEmoji idx)] ∧
    (∀ e ∈ (handle_text_message true true store u m
        ⟨false, dr, CompletionResult.success "無關", nr, er, vr, idx⟩).trace,
      isSleep e = false) ∧
    send_delayed_response t = [Effect.sleep (pyLen t), Effect.reply (pyStrip t)] := by
  rw [handle_text_no_pending store u m ⟨false, dr, CompletionResult.success "無關",
        nr, er, vr, idx⟩ rfl hnp,
      textClassificationFlow_unrelated store m ⟨false, dr,
        CompletionResult.success "無關", nr, er, vr, idx⟩ rfl]
  refine ⟨rfl, ?_, rfl⟩
  intro e he
  have h2 : e = Effect.callLLM (CallKind.classify m) ∨ e = Effect.reply (pickEmoji idx) := by
    simpa using he
  rcases h2 with h|h <;> subst h <;> rfl

theorem C10_unrelated_no_delay_check :
    (handle_text_message true true [] "U" "哈囉"
        ⟨false, false, CompletionResult.success "無關", CompletionResult.success "好",
          CompletionResult.success "好", CompletionResult.success "好", 4⟩).trace
      = [Effect.callLLM (CallKind.classify "哈囉"), Effect.reply (pickEmoji 4)] ∧
    (∀ e ∈ (handle_text_message true true [] "U" "哈囉"
        ⟨false, false, CompletionResult.success "無關", CompletionResult.success "好",
          CompletionResult.success "好", CompletionResult.success "好", 4⟩).trace,
      isSleep e = false) ∧
    send_delayed_response "hi " = [Effect.sleep (pyLen "hi "),
      Effect.reply (pyStrip "hi ")] :=
  C10_unrelated_no_delay [] "U" "哈囉" "hi " false (CompletionResult.success "好")
    (CompletionResult.success "好") (CompletionResult.success "好") 4 (by decide)

/-- Claim C3: with the handler initialized and a verified signature, the
webhook endpoint answers 200 "OK" for every event and every
external-call outcome; errors inside the pipeline are caught and turned
into a single generic apology reply (here shown for an unexpected
classification failure and for an unexpected image-fetch failure), never
into a non-success response. -/
theorem C3_webhook_success (st : AppState) (store : Store) (ev : InboundEvent)
    (ot : TextOracle) (oi : ImageOracle) (u m b64 : String)
    (gr dr sr : Bool) (nr er vr vr2 : CompletionResult) (idx : Nat) :
    (callback true true st store ev ot oi).status = 200 ∧
    (callback true true st store ev ot oi).body = "OK" ∧
    (replyTexts (callback true true st store ev ot oi).res.trace).length = 1 ∧
    replyTexts (callback true true ⟨true, false⟩ store (InboundEvent.text u m)
        ⟨gr, dr, CompletionResult.otherError, nr, er, vr, idx⟩ oi).res.trace
      = [defaultReply] ∧
    replyTexts (callback true true ⟨true, false⟩ store (InboundEvent.image u)
        ot ⟨true, b64, sr, vr2⟩).res.trace = [imageOtherApology] := by
  refine ⟨rfl, rfl, ?_, ?_, ?_⟩
  · cases ev with
    | text u2 m2 => exact handle_text_one_reply st.client st.rPresent store u2 m2 ot
    | image u2 => exact handle_image_one_reply st.client st.rPresent store u2 oi
  · show [pyStrip defaultReply] = [defaultReply]
    rw [pyStrip_defaultReply]
  · show [pyStrip imageOtherApology] = [imageOtherApology]
    rw [pyStrip_imageOtherApology]

/-- Claim C4: a completion-service exception on any path is caught at
that path's boundary and answered with the path's fixed apology string
for its failure class; an authentication error yields the same fixed
auth apology on every path, and every text or image turn completes with
exactly one reply. -/
theorem C4_completion_failure_fallbacks (store : Store) (u m b64 : String)
    (gr dr sr : Bool) (cr nr er vr : CompletionResult) (idx : Nat)
    (hpend : storeGet store (pendingKey u) = some (RVal.imageJson b64))
    (hkw : is_image_analysis_intent m = true) :
    -- classification call failures (no store configured, so no pending image)
    replyTexts (handle_text_message true false store u m
        ⟨gr, dr, CompletionResult.authError, nr, er, vr, idx⟩).trace = [authApology] ∧
    replyTexts (handle_text_message true false store u m
        ⟨gr, dr, CompletionResult.apiError, nr, er, vr, idx⟩).trace = [textApiApology] ∧
    replyTexts (handle_text_message true false store u m
        ⟨gr, dr, CompletionResult.otherError, nr, er, vr, idx⟩).trace = [defaultReply] ∧
    -- nutrition-generation failures
    replyTexts (handle_text_message true false store u m
        ⟨gr, dr, CompletionResult.success "營養/健康相關", CompletionResult.authError,
          er, vr, idx⟩).trace = [authApology] ∧
    replyTexts (handle_text_message true false store u m
        ⟨gr, dr, CompletionResult.success "營養/健康相關", CompletionResult.apiError,
          er, vr, idx⟩).trace = [textApiApology] ∧
    replyTexts (handle_text_message true false store u m
        ⟨gr, dr, CompletionResult.success "營養/健康相關", CompletionResult.otherError,
          er, vr, idx⟩).trace = [defaultReply] ∧
    -- emotional-generation failures
    replyTexts (handle_text_message true false store u m
        ⟨gr, dr, CompletionResult.success "情緒/閒聊/非營養提問", nr,
          CompletionResult.authError, vr, idx⟩).trace = [authApology] ∧
    replyTexts (handle_text_message true false store u m
        ⟨gr, dr, CompletionResult.success "情緒/閒聊/非營養提問", nr,
          CompletionResult.apiError, vr, idx⟩).trace = [textApiApology] ∧
    replyTexts (handle_text_message true false store u m
        ⟨gr, dr, CompletionResult.success "情緒/閒聊/非營養提問", nr,
          CompletionResult.otherError, vr, idx⟩).trace = [defaultReply] ∧
    -- vision failures on the pending-image path
    replyTexts (handle_text_message true true store u m
        ⟨false, dr, cr, nr, er, CompletionResult.authError, idx⟩).trace
      = [authApology] ∧
    replyTexts (handle_text_message true true store u m
        ⟨false, dr, cr, nr, er, CompletionResult.apiError, idx⟩).trace
      = [visionApiApology] ∧
    replyTexts (handle_text_message true true store u m
        ⟨false, dr, cr, nr, er, CompletionResult.otherError, idx⟩).trace
      = [visionOtherApology] ∧
    -- vision failures on the direct image path (store unconfigured)
    replyTexts (handle_image_message true false store u
        ⟨false, b64, sr, CompletionResult.authError⟩).trace = [authApology] ∧
    replyTexts (handle_image_message true false store u
        ⟨false, b64, sr, CompletionResult.apiError⟩).trace = [visionApiApology] ∧
    replyTexts (handle_image_message true false store u
        ⟨false, b64, sr, CompletionResult.otherError⟩).trace = [imageOtherApology] ∧
    -- the turn always completes with exactly one reply
    (∀ (c rp : Bool) (o : TextOracle),
      (replyTexts (handle_text_message c rp store u m o).trace).length = 1) ∧
    (∀ (c rp : Bool) (o : ImageOracle),
      (replyTexts (handle_image_message c rp store u o).trace).length = 1) := by
  refine ⟨?_, ?_, ?_, ?_, ?_, ?_, ?_, ?_, ?_, ?_, ?_, ?_, ?_, ?_, ?_,
    fun c rp o => handle_text_one_reply c rp store u m o,
    fun c rp o => handle_image_one_reply c rp store u o⟩
  · show [pyStrip authApology] = [authApology]
    rw [pyStrip_authApology]
  · show [pyStrip textApiApology] = [textApiApology]
    rw [pyStrip_textApiApology]
  · show [pyStrip defaultReply] = [defaultReply]
    rw [pyStrip_defaultReply]
  · show [pyStrip authApology] = [authApology]
    rw [pyStrip_authApology]
  · show [pyStrip textApiApology] = [textApiApology]
    rw [pyStrip_textApiApology]
  · show [pyStrip defaultReply] = [defaultReply]
    rw [pyStrip_defaultReply]
  · show [pyStrip authApology] = [authApology]
    rw [pyStrip_authApology]
  · show [pyStrip textApiApology] = [textApiApology]
    rw [pyStrip_textApiApology]
  · show [pyStrip defaultReply] = [defaultReply]
    rw [pyStrip_defaultReply]
  · rw [handle_text_pending_intent store u m (RVal.imageJson b64)
        ⟨false, dr, cr, nr, er, CompletionResult.authError, idx⟩ rfl hpend rfl hkw]
    cases dr
    · show [pyStrip authApology] = [authApology]
      rw [pyStrip_authApology]
    · show [pyStrip authApology] = [authApology]
      rw [pyStrip_authApology]
  · rw [handle_text_pending_intent store u m (RVal.imageJson b64)
        ⟨false, dr, cr, nr, er, CompletionResult.apiError, idx⟩ rfl hpend rfl hkw]
    cases dr
    · show [pyStrip visionApiApology] = [visionApiApology]
      rw [pyStrip_visionApiApology]
    · show [pyStrip visionApiApology] = [visionApiApology]
      rw [pyStrip_visionApiApology]
  · rw [handle_text_pending_intent store u m (RVal.imageJson b64)
        ⟨false, dr, cr, nr, er, CompletionResult.otherError, idx⟩ rfl hpend rfl hkw]
    cases dr
    · show [pyStrip visionOtherApology] = [visionOtherApology]
      rw [pyStrip_visionOtherApology]
    · show [pyStrip visionOtherApology] = [visionOtherApology]
      rw [pyStrip_visionOtherApology]
  · show [pyStrip authApology] = [authApology]
    rw [pyStrip_authApology]
  · show [pyStrip visionApiApology] = [visionApiApology]
    rw [pyStrip_visionApiApology]
  · show [pyStrip imageOtherApology] = [imageOtherApology]
    rw [pyStrip_imageOtherApology]

theorem C4_completion_failure_fallbacks_check :
    replyTexts (handle_text_message true false demoStore "U" "這張圖片熱量多少？"
        ⟨false, false, CompletionResult.authError, CompletionResult.success "好",
          CompletionResult.success "好", CompletionResult.success "好", 0⟩).trace
      = [authApology] :=
  (C4_completion_failure_fallbacks demoStore "U" "這張圖片熱量多少？" "B64"
    false false false (CompletionResult.success "好") (CompletionResult.success "好")
    (CompletionResult.success "好") (CompletionResult.success "好") 0
    (by decide) (by decide)).1

/-- Claim C5, counterexample: with the store configured but unreachable,
an image turn whose `r.set` raises is answered by the generic apology
and makes no completion call at all — it does not fall back to direct
stateless image analysis as the claim states. -/
theorem C5_set_failure_counterexample :
    llmCalls (handle_image_message true true [] "U"
        ⟨false, "B64", true, CompletionResult.success "好"⟩).trace = [] ∧
    replyTexts (handle_image_message true true [] "U"
        ⟨false, "B64", true, CompletionResult.success "好"⟩).trace
      = [imageOtherApology] ∧
    (handle_image_message true true [] "U"
        ⟨false, "B64", true, CompletionResult.success "好"⟩).store = [] := by
  refine ⟨rfl, ?_, rfl⟩
  show [pyStrip imageOtherApology] = [imageOtherApology]
  rw [pyStrip_imageOtherApology]

/-- Claim C5, amended: store failures never propagate — a `get` failure
is treated as no pending image and the text turn proceeds to
classification, a `delete` failure is caught and vision analysis still
runs with exactly one reply, and an image turn with no store configured
falls back to direct stateless analysis; but when the store is
configured and `set` fails, the image turn is answered with the generic
apology (one reply, nothing stored, no analysis) instead of falling
back to direct analysis. -/
theorem C5_store_failure_degradation (store : Store) (u m b64 : String)
    (dr sr : Bool) (cr nr er vr : CompletionResult) (idx : Nat)
    (hpend : storeGet store (pendingKey u) = some (RVal.imageJson b64))
    (hkw : is_image_analysis_intent m = true) :
    handle_text_message true true store u m ⟨true, dr, cr, nr, er, vr, idx⟩
      = textClassificationFlow store m ⟨true, dr, cr, nr, er, vr, idx⟩ ∧
    CallKind.visionFromText b64 ∈
        llmCalls (handle_text_message true true store u m
          ⟨false, true, cr, nr, er, vr, idx⟩).trace ∧
    (replyTexts (handle_text_message true true store u m
        ⟨false, true, cr, nr, er, vr, idx⟩).trace).length = 1 ∧
    llmCalls (handle_image_message true false store u ⟨false, b64, sr, vr⟩).trace
      = [CallKind.visionFromImage b64] ∧
    replyTexts (handle_image_message true true store u ⟨false, b64, true, vr⟩).trace
      = [imageOtherApology] ∧
    (handle_image_message true true store u ⟨false, b64, true, vr⟩).store = store ∧
    llmCalls (handle_image_message true true store u ⟨false, b64, true, vr⟩).trace
      = [] := by
  refine ⟨rfl, ?_, ?_, ?_, ?_, rfl, rfl⟩
  · rw [handle_text_pending_intent store u m (RVal.imageJson b64)
        ⟨false, true, cr, nr, er, vr, idx⟩ rfl hpend rfl hkw]
    cases vr <;> exact List.mem_singleton.mpr rfl
  · rw [handle_text_pending_intent store u m (RVal.imageJson b64)
        ⟨false, true, cr, nr, er, vr, idx⟩ rfl hpend rfl hkw]
    cases vr <;> rfl
  · cases vr <;> rfl
  · show [pyStrip imageOtherApology] = [imageOtherApology]
    rw [pyStrip_imageOtherApology]

theorem C5_store_failure_degradation_check :
    handle_text_message true true demoStore "U" "這張圖片熱量多少？"
        ⟨true, false, CompletionResult.success "好", CompletionResult.success "好",
          CompletionResult.success "好", CompletionResult.success "好", 0⟩
      = textClassificationFlow demoStore "這張圖片熱量多少？"
          ⟨true, false, CompletionResult.success "好", CompletionResult.success "好",
            CompletionResult.success "好", CompletionResult.success "好", 0⟩ :=
  (C5_store_failure_degradation demoStore "U" "這張圖片熱量多少？" "B64" false false
    (CompletionResult.success "好") (CompletionResult.success "好")
    (CompletionResult.success "好") (CompletionResult.success "好") 0
    (by decide) (by decide)).1

/-- Claim C8, counterexample: with the LINE credentials present but the
OpenAI key missing, module initialization succeeds (startup is not
fatal) — the process runs with `client = None` and a text turn is
answered with the fixed fallback reply. -/
theorem C8_missing_openai_not_fatal :
    module_init ⟨true, true, false, true⟩ = some ⟨false, true⟩ ∧
    replyTexts (handle_text_message false true [] "U" "嗨"
        ⟨false, false, CompletionResult.success "好", CompletionResult.success "好",
          CompletionResult.success "好", CompletionResult.success "好", 0⟩).trace
      = [defaultReply] := by
  refine ⟨rfl, ?_⟩
  show [pyStrip defaultReply] = [defaultReply]
  rw [pyStrip_defaultReply]

/-- Claim C8, amended: missing messaging-gateway credentials are fatal at
startup (the handler decorators raise at import), while a missing
completion-service key or store address leaves the system running
degraded — with no OpenAI client every text turn gets the fixed
fallback reply, and with no store the image path runs direct stateless
analysis. -/
theorem C8_startup_fatality (c : Config) (store : Store) (u m b64 : String)
    (rp sr : Bool) (o : TextOracle) (vr : CompletionResult) :
    ((c.lineToken = false ∨ c.lineSecret = false) → module_init c = none) ∧
    (c.lineToken = true → c.lineSecret = true →
      module_init c = some ⟨c.openaiKey, c.redisUrl⟩) ∧
    replyTexts (handle_text_message false rp store u m o).trace = [defaultReply] ∧
    llmCalls (handle_image_message true false store u ⟨false, b64, sr, vr⟩).trace
      = [CallKind.visionFromImage b64] := by
  refine ⟨?_, ?_, ?_, ?_⟩
  · rintro (h | h) <;> simp [module_init, h]
  · intro h1 h2
    simp [module_init, h1, h2]
  · show [pyStrip defaultReply] = [defaultReply]
    rw [pyStrip_defaultReply]
  · cases vr <;> rfl

theorem C8_startup_fatality_check :
    module_init ⟨false, true, true, true⟩ = none ∧
    module_init ⟨true, true, false, true⟩ = some ⟨false, true⟩ :=
  ⟨(C8_startup_fatality ⟨false, true, true, true⟩ [] "U" "嗨" "B64" false false
      ⟨false, false, CompletionResult.success "好", CompletionResult.success "好",
        CompletionResult.success "好", CompletionResult.success "好", 0⟩
      (CompletionResult.success "好")).1 (Or.inl rfl),
   (C8_startup_fatality ⟨true, true, false, true⟩ [] "U" "嗨" "B64" false false
      ⟨false, false, CompletionResult.success "好", CompletionResult.success "好",
        CompletionResult.success "好", CompletionResult.success "好", 0⟩
      (CompletionResult.success "好")).2.1 rfl rfl⟩

end NutritionBot
